import Mathlib

/-!
Verification of the "Distribuidor de Senhas" ticket issuer
(`event_utils.py`) against its natural-language specification.

Strings are modelled as `List Char` (Python `str`).  The Google-Sheets
collaborator is modelled as explicit state passing plus an event trace;
the acknowledgement returned by the store's append operation
(`updatedRange`) is an oracle parameter, since the claims quantify over
every possible acknowledgement.  Unicode NFKD folding is modelled as a
character-to-character accent-folding table covering the Latin letters
used by the configuration vocabulary; Python `str.upper` / `str.lower`
are modelled as ASCII/Latin case tables.
-/

namespace SenhasGF

/-- Python `str` modelled as a list of characters. -/
abbrev Str := List Char

/-- Coerce a Lean string literal into the model's string type. -/
def S (s : String) : Str := s.toList

/-- Whitespace test used by Python `str.strip`, modelled with `Char.isWhitespace`. -/
def isWS (c : Char) : Bool := c.isWhitespace

/-- Python `str.strip()`: drop whitespace from both ends. -/
def pyStrip (l : Str) : Str :=
  (((l.dropWhile isWS).reverse.dropWhile isWS)).reverse

/-- Case-mapping table for Python `str.upper` (ASCII letters plus the
accented Latin letters that occur in this application's vocabulary). -/
def upperPairs : List (Char × Char) :=
  [ ('a', 'A'), ('b', 'B'), ('c', 'C'), ('d', 'D'), ('e', 'E'), ('f', 'F'),
    ('g', 'G'), ('h', 'H'), ('i', 'I'), ('j', 'J'), ('k', 'K'), ('l', 'L'),
    ('m', 'M'), ('n', 'N'), ('o', 'O'), ('p', 'P'), ('q', 'Q'), ('r', 'R'),
    ('s', 'S'), ('t', 'T'), ('u', 'U'), ('v', 'V'), ('w', 'W'), ('x', 'X'),
    ('y', 'Y'), ('z', 'Z'),
    ('á', 'Á'), ('à', 'À'), ('â', 'Â'), ('ã', 'Ã'), ('ä', 'Ä'),
    ('é', 'É'), ('è', 'È'), ('ê', 'Ê'), ('ë', 'Ë'),
    ('í', 'Í'), ('ì', 'Ì'), ('î', 'Î'), ('ï', 'Ï'),
    ('ó', 'Ó'), ('ò', 'Ò'), ('ô', 'Ô'), ('õ', 'Õ'), ('ö', 'Ö'),
    ('ú', 'Ú'), ('ù', 'Ù'), ('û', 'Û'), ('ü', 'Ü'),
    ('ç', 'Ç'), ('ñ', 'Ñ') ]

/-- Python `str.upper`, one character at a time. -/
def charUpper (c : Char) : Char :=
  match upperPairs.find? (fun p => p.1 == c) with
  | some p => p.2
  | none => c

/-- Python `str.lower`, one character at a time (inverse table of `upperPairs`). -/
def charLower (c : Char) : Char :=
  match upperPairs.find? (fun p => p.2 == c) with
  | some p => p.1
  | none => c

/-- Accent folding: NFKD decomposition followed by removal of combining
characters, modelled as a character table over the Latin letters used in
the configuration vocabulary. -/
def foldChar (c : Char) : Char :=
  match c with
  | 'á' => 'a' | 'à' => 'a' | 'â' => 'a' | 'ã' => 'a' | 'ä' => 'a'
  | 'é' => 'e' | 'è' => 'e' | 'ê' => 'e' | 'ë' => 'e'
  | 'í' => 'i' | 'ì' => 'i' | 'î' => 'i' | 'ï' => 'i'
  | 'ó' => 'o' | 'ò' => 'o' | 'ô' => 'o' | 'õ' => 'o' | 'ö' => 'o'
  | 'ú' => 'u' | 'ù' => 'u' | 'û' => 'u' | 'ü' => 'u'
  | 'ç' => 'c' | 'ñ' => 'n'
  | 'Á' => 'A' | 'À' => 'A' | 'Â' => 'A' | 'Ã' => 'A' | 'Ä' => 'A'
  | 'É' => 'E' | 'È' => 'E' | 'Ê' => 'E' | 'Ë' => 'E'
  | 'Í' => 'I' | 'Ì' => 'I' | 'Î' => 'I' | 'Ï' => 'I'
  | 'Ó' => 'O' | 'Ò' => 'O' | 'Ô' => 'O' | 'Õ' => 'O' | 'Ö' => 'O'
  | 'Ú' => 'U' | 'Ù' => 'U' | 'Û' => 'U' | 'Ü' => 'U'
  | 'Ç' => 'C' | 'Ñ' => 'N'
  | c => c

/-- `_normalize` from the source: accent-fold, strip, lower-case. -/
def _normalize (s : Str) : Str := List.map charLower (pyStrip (List.map foldChar s))

/-- Error kinds raised by the source (`ValueError` for validation,
`RuntimeError` for persistence/configuration failures). -/
inductive Err where
  | valueError (msg : Str)
  | runtimeError (msg : Str)
deriving DecidableEq, Repr

/-- `re.sub(r"\D", "", s)`: keep only the (ASCII-modelled) digits. -/
def digitsOf (s : Str) : Str := s.filter Char.isDigit

/-- The digit content of a phone input after the country-code stripping
step of `format_phone_number` (drop a leading `55` when the digit string
is longer than 11 digits). -/
def phone_digits_stripped (telefone : Str) : Str :=
  let digits := digitsOf (pyStrip telefone)
  if digits.take 2 = S "55" ∧ 11 < digits.length then digits.drop 2 else digits

/-- `format_phone_number` from the source. -/
def format_phone_number (telefone : Str) : Except Err Str :=
  let t := pyStrip telefone
  if t = [] then Except.error (Err.valueError (S "Telefone é obrigatório."))
  else if digitsOf t = [] then
    Except.error (Err.valueError (S "Telefone deve conter apenas números válidos."))
  else
    let digits := phone_digits_stripped telefone
    if digits.length = 11 then
      let numero_local := digits.drop (digits.length - 9)
      Except.ok (S "(92) " ++ numero_local.take 5 ++ S "-" ++ numero_local.drop 5)
    else
      Except.error (Err.valueError (S "Telefone deve conter 11 dígitos (incluindo DDD)."))

/-- `format_name_upper` from the source: strip then upper-case. -/
def format_name_upper (nome : Str) : Str := List.map charUpper (pyStrip nome)

/-- The affirmative vocabulary recognised by `_truthy`. -/
def truthyTokens : List Str :=
  [S "sim", S "s", S "true", S "1", S "y", S "yes", S "ativo", S "ativa", S "on", S "ok"]

/-- `_truthy` from the source, on cell values (always strings here). -/
def _truthy (v : Str) : Bool := truthyTokens.contains (_normalize v)

/-- `int` conversion of a digit string (Python `int(...)`). -/
def natOfDigits (l : Str) : Nat := l.foldl (fun n c => n * 10 + (c.toNat - 48)) 0

/-- `_parse_positive_int` from the source, on optional cell values
(the numeric branches of the Python function do not arise for
spreadsheet cells, which are strings). -/
def _parse_positive_int (value : Option Str) : Option Nat :=
  match value with
  | none => none
  | some v =>
    let s := v.filter Char.isDigit
    if s = [] then none
    else if 0 < natOfDigits s then some (natOfDigits s) else none

/-- `_find_col_indexes` from the source: first candidate that matches a
normalized header cell, returning the cell's index. -/
def _find_col_indexes (header : List Str) (candidates : List Str) : Option Nat :=
  let norm := header.map _normalize
  candidates.findSome? (fun want => norm.findIdx? (fun col => col == _normalize want))

/-- Helper for the regex `!.*?(\d+):` — after the leading `!`, find the
first maximal digit run immediately followed by a colon. -/
def findRunColon : Str → Option Str
  | [] => none
  | c :: rest =>
    if c.isDigit then
      match (c :: rest).dropWhile Char.isDigit with
      | ':' :: _ => some ((c :: rest).takeWhile Char.isDigit)
      | _ => findRunColon rest
    else findRunColon rest

/-- Within a single line, the first match of `!.*?(\d+):` (`.` does not
cross line boundaries, handled by the caller). -/
def lineFirstRun (l : Str) : Option Str :=
  match l.dropWhile (fun c => !(c == '!')) with
  | [] => none
  | _ :: rest => findRunColon rest

/-- `re.search(r"!.*?(\d+):", s)`: since `.` does not match a newline,
the match lives in a single line. -/
def parseRegexColon (s : Str) : Option Nat :=
  ((s.splitOn '\n').findSome? lineFirstRun).map natOfDigits

/-- `re.search(r"!.*?(\d+)$", s)`: `$` matches at the end of the string
or just before one final newline; the `!` must sit in the same line as
the trailing digit run. -/
def parseRegexEnd (s : Str) : Option Nat :=
  let core := match s.reverse with
    | '\n' :: r => r.reverse
    | _ => s
  let lastLine := (core.splitOn '\n').getLastD []
  let run := (lastLine.reverse.takeWhile Char.isDigit).reverse
  if run = [] then none
  else if (List.rdrop lastLine run.length).contains '!' then some (natOfDigits run)
  else none

/-- Row-position extraction from the append acknowledgement's
`updatedRange`, as in the source: first regex, then the fallback. -/
def parseUpdatedRange (s : Str) : Option Nat :=
  match parseRegexColon s with
  | some n => some n
  | none => parseRegexEnd s

/-- A sheet row: a list of cell strings. -/
abbrev Row := List Str

/-- The spreadsheet: titled sheets, each a list of rows. -/
abbrev SheetsState := List (Str × List Row)

/-- The fixed header row (`HEADERS` in the source). -/
def HEADERS : List Str :=
  [S "Senha", S "Nome", S "Telefone", S "Rede Social", S "E-mail",
   S "Bairro", S "Data e Hora de Registro", S "Data e Hora de Atendimento"]

/-- Store operations issued by the issuer, in program order. -/
inductive Ev where
  | getMeta
  | addSheet (title : Str)
  | writeHeader (title : Str)
  | readRow1 (title : Str)
  | append (title : Str) (row : Row)
  | writeNumCell (title : Str) (rowIdx : Nat) (value : Str)
  | readCfg
deriving DecidableEq, Repr

/-- Which store operations mutate the store. -/
def Ev.isMutation : Ev → Bool
  | .addSheet _ => true
  | .writeHeader _ => true
  | .append _ _ => true
  | .writeNumCell _ _ _ => true
  | _ => false

def sheetRowsOpt (st : SheetsState) (title : Str) : Option (List Row) :=
  (st.find? (fun p => p.1 == title)).map Prod.snd

def setSheetRows (st : SheetsState) (title : Str) (f : List Row → List Row) : SheetsState :=
  st.map (fun p => if p.1 == title then (p.1, f p.2) else p)

/-- `ensure_area_sheet` from the source: create the sheet with the header
row if absent; fill the header row if present but blank; otherwise leave
the sheet untouched. -/
def ensure_area_sheet (st : SheetsState) (title : Str) : List Ev × SheetsState :=
  match sheetRowsOpt st title with
  | none =>
    ([Ev.getMeta, Ev.addSheet title, Ev.writeHeader title], st ++ [(title, [HEADERS])])
  | some rows =>
    if rows.headD [] = [] then
      ([Ev.getMeta, Ev.readRow1 title, Ev.writeHeader title],
       setSheetRows st title (fun rs =>
         match rs with
         | [] => [HEADERS]
         | _ :: t => HEADERS :: t))
    else ([Ev.getMeta, Ev.readRow1 title], st)

/-- Decimal digit character (for Python `str(int)`). -/
def digitChar (d : Nat) : Char :=
  if d = 0 then '0' else if d = 1 then '1' else if d = 2 then '2'
  else if d = 3 then '3' else if d = 4 then '4' else if d = 5 then '5'
  else if d = 6 then '6' else if d = 7 then '7' else if d = 8 then '8'
  else if d = 9 then '9' else '0'

def natToStrAux : Nat → Nat → Str → Str
  | 0, _, acc => acc
  | fuel + 1, n, acc =>
    if n = 0 then acc else natToStrAux fuel (n / 10) (digitChar (n % 10) :: acc)

/-- Python `str(n)` for a natural number. -/
def natToStr (n : Nat) : Str := if n = 0 then [digitChar 0] else natToStrAux n n []

def setFirstCell (r : Row) (v : Str) : Row :=
  match r with
  | [] => [v]
  | _ :: t => v :: t

/-- Write the value into cell `A{n}` (1-based row index). -/
def setCellA (rows : List Row) (n : Nat) (v : Str) : List Row :=
  if n = 0 then rows
  else if n - 1 < rows.length then rows.set (n - 1) (setFirstCell (rows.getD (n - 1) []) v)
  else rows ++ List.replicate (n - 1 - rows.length) [] ++ [[v]]

/-- Result of one effectful operation: return value, event trace, store state. -/
structure AtgnOut where
  ret : Except Err Nat
  trace : List Ev
  state : SheetsState
deriving Repr

/-- `append_ticket_and_get_number` from the source.  The store's append
acknowledgement (`updatedRange`) is the oracle parameter `ack`: ensure
the sheet, append the row, parse the acknowledgement, fail with a
`RuntimeError` if no row position is found, otherwise compute
`senha = max 1 (rowIdx - 1)` and rewrite cell `A{rowIdx}` with it. -/
def append_ticket_and_get_number (st : SheetsState) (title : Str) (row : Row) (ack : Str) :
    AtgnOut :=
  let es := ensure_area_sheet st title
  let st1 := setSheetRows es.2 title (fun rs => rs ++ [row])
  let tr := es.1 ++ [Ev.append title row]
  match parseUpdatedRange ack with
  | none =>
    ⟨Except.error (Err.runtimeError (S "Não foi possível detectar a linha inserida: " ++ ack)),
     tr, st1⟩
  | some rowIdx =>
    let senha := max 1 (rowIdx - 1)
    ⟨Except.ok senha,
     tr ++ [Ev.writeNumCell title rowIdx (natToStr senha)],
     setSheetRows st1 title (fun rs => setCellA rs rowIdx (natToStr senha))⟩

/-- An active area as returned by `read_active_areas`. -/
structure AreaInfo where
  area : Str
  sheet : Str
  ativa : Bool
  max_senhas : Option Nat
deriving DecidableEq, Repr

/-- `row[i] if i < len(row) else ""`. -/
def cellAt (row : Row) (i : Nat) : Str := row.getD i []

/-- Per-row body of the `read_active_areas` loop: skip rows with a blank
area name, default the destination sheet to the area name, default the
active flag to `"Sim"`, and keep the row only when the flag is truthy. -/
def areaRowInfo (area_idx : Nat) (aba_idx ativa_idx max_idx : Option Nat) (row : Row) :
    Option AreaInfo :=
  let area := pyStrip (cellAt row area_idx)
  if area = [] then none
  else
    let base := match aba_idx with
      | some bi => if bi < row.length then cellAt row bi else area
      | none => area
    let sheet_title := if pyStrip base = [] then area else pyStrip base
    let ativa_val := match ativa_idx with
      | some ci => if ci < row.length then cellAt row ci else S "Sim"
      | none => S "Sim"
    let max_val : Option Str := match max_idx with
      | some mi => if mi < row.length then some (cellAt row mi) else none
      | none => none
    if _truthy ativa_val then
      some ⟨area, sheet_title, true, _parse_positive_int max_val⟩
    else none

/-- Column-synonym lists used by `read_active_areas`. -/
def areaCols : List Str := [S "Área", S "Area", S "Setor", S "Mesa", S "Área/Setor"]
def abaCols : List Str :=
  [S "Aba", S "Sheet", S "AbaDestino", S "Aba Destino", S "Destino", S "Guia", S "Tab"]
def ativaCols : List Str := [S "Ativa", S "Ativo", S "Status", S "Habilitada", S "Disponível"]
def maxCols : List Str :=
  [S "Quantidade máxima de senhas", S "Qtd máxima", S "Qtd Senhas", S "Limite"]

/-- `read_active_areas` from the source, on the raw contents of the
configuration table (header row plus data rows). -/
def read_active_areas (rows : List Row) : Except Err (List AreaInfo) :=
  if rows = [] then Except.ok []
  else
    let header := rows.headD []
    match _find_col_indexes header areaCols with
    | none =>
      Except.error (Err.runtimeError
        (S "Coluna Área (ou equivalente) não encontrada na aba Nomes."))
    | some area_idx =>
      Except.ok (rows.tail.filterMap
        (areaRowInfo area_idx (_find_col_indexes header abaCols)
          (_find_col_indexes header ativaCols) (_find_col_indexes header maxCols)))

/-- Python dicts of strings, as association lists. -/
abbrev Dict := List (Str × Str)

/-- `d.get(k, dflt)`. -/
def dget (d : Dict) (k : Str) (dflt : Str) : Str :=
  match d.find? (fun p => p.1 == k) with
  | some p => p.2
  | none => dflt

/-- One rendered ticket page: the fields `_render_ticket_page` places on
the page (the fixed layout, fonts and images carry no claim content). -/
structure Page where
  area : Str
  senha : Str
  nome : Str
  telefone : Str
  bairro : Str
  ts_registro : Str
  qr_payload : Str
  barcode_text : Str
deriving DecidableEq, Repr

/-- `_render_ticket_page` from the source: pure field extraction; the
phone field is re-normalized and a `ValueError` propagates. -/
def _render_ticket_page (d : Dict) : Except Err Page :=
  let area := pyStrip (dget d (S "area") (S "Área"))
  let senha := pyStrip (dget d (S "senha") (S "0"))
  let nome := format_name_upper (dget d (S "nome") [])
  match format_phone_number (dget d (S "telefone") []) with
  | Except.error e => Except.error e
  | Except.ok tel =>
    let bairro := pyStrip (dget d (S "bairro") [])
    let ts := pyStrip (dget d (S "ts_registro") [])
    Except.ok
      ⟨area, senha, nome, tel, bairro, ts,
       area ++ ['|'] ++ senha ++ ['|'] ++ nome, senha⟩

/-- `generate_ticket_pdf` from the source: a single-page document. -/
def generate_ticket_pdf (d : Dict) : Except Err (List Page) :=
  match _render_ticket_page d with
  | Except.error e => Except.error e
  | Except.ok p => Except.ok [p]

/-- `generate_tickets_pdf` from the source: one page per ticket, in
input order; the first `ValueError` propagates. -/
def generate_tickets_pdf (ds : List Dict) : Except Err (List Page) :=
  ds.mapM _render_ticket_page

/-- One entry of the exceeded-quota report. -/
structure Exceeded where
  area : Str
  limite : Nat
  senha : Nat
deriving DecidableEq, Repr

/-- The triple returned by a successful `submit_tickets`. -/
structure SubmitOk where
  resultados : List Dict
  pdf : Option (List Page)
  excedidas : List Exceeded
deriving DecidableEq, Repr

/-- Result of `submit_tickets`: outcome, event trace, store state. -/
structure SubmitOut where
  ret : Except Err SubmitOk
  trace : List Ev
  state : SheetsState
deriving Repr

/-- The registration dict built inside the `submit_tickets` loop. -/
def mkRegistro (area sheet_title : Str) (senha : Nat)
    (nome_fmt telefone_fmt bairro_fmt rede_fmt email_fmt ts : Str) : Dict :=
  [(S "area", area), (S "sheet", sheet_title), (S "senha", natToStr senha),
   (S "nome", nome_fmt), (S "telefone", telefone_fmt), (S "bairro", bairro_fmt),
   (S "rede_social", rede_fmt), (S "email", email_fmt), (S "ts_registro", ts)]

/-- `map_area_sheet.get(area) or area`. -/
def sheetFor (lookupSheet : Str → Option Str) (area : Str) : Str :=
  match lookupSheet area with
  | some s => if s = [] then area else s
  | none => area

/-- The row appended for each area: blank leading `Senha` cell, then the
normalized fields, then a blank service timestamp. -/
def theRow (nome_fmt telefone_fmt rede_fmt email_fmt bairro_fmt ts : Str) : Row :=
  [[], nome_fmt, telefone_fmt, rede_fmt, email_fmt, bairro_fmt, ts, []]

/-- Loop accumulator of `submit_tickets`. -/
structure LoopAcc where
  resultados : List Dict
  excedidas : List Exceeded
  trace : List Ev
  state : SheetsState
deriving Repr

/-- The per-area loop of `submit_tickets`: append the row, recover the
ticket number, record the registration, and collect a quota violation
when the configured maximum is exceeded; a persistence failure aborts
the remaining areas but keeps the effects already performed. -/
def submitLoop (lookupSheet : Str → Option Str) (lookupLimit : Str → Option Nat)
    (nome_fmt telefone_fmt bairro_fmt rede_fmt email_fmt ts : Str) (acks : Nat → Str) :
    List Str → Nat → LoopAcc → LoopAcc × Option Err
  | [], _, acc => (acc, none)
  | area :: rest, k, acc =>
    let sheet_title := sheetFor lookupSheet area
    let row := theRow nome_fmt telefone_fmt rede_fmt email_fmt bairro_fmt ts
    let r := append_ticket_and_get_number acc.state sheet_title row (acks k)
    match r.ret with
    | Except.error e =>
      ({ acc with trace := acc.trace ++ r.trace, state := r.state }, some e)
    | Except.ok senha =>
      let registro :=
        mkRegistro area sheet_title senha nome_fmt telefone_fmt bairro_fmt rede_fmt email_fmt ts
      let exc := match lookupLimit area with
        | some l => if l < senha then acc.excedidas ++ [⟨area, l, senha⟩] else acc.excedidas
        | none => acc.excedidas
      submitLoop lookupSheet lookupLimit nome_fmt telefone_fmt bairro_fmt rede_fmt email_fmt ts
        acks rest (k + 1)
        { resultados := acc.resultados ++ [registro], excedidas := exc,
          trace := acc.trace ++ r.trace, state := r.state }

/-- `{a["area"]: a["sheet"]}.get` — later duplicates win. -/
def sheetLookup (infos : List AreaInfo) (a : Str) : Option Str :=
  (infos.reverse.find? (fun i => i.area == a)).map AreaInfo.sheet

/-- `{a["area"]: a.get("max_senhas")}.get(area)` — absent key and stored
`None` both collapse to `none`. -/
def limitLookup (infos : List AreaInfo) (a : Str) : Option Nat :=
  match infos.reverse.find? (fun i => i.area == a) with
  | some i => i.max_senhas
  | none => none

/-- Tail of `submit_tickets` after the per-area loop: propagate a loop
failure; otherwise generate the document only when no quota was
exceeded, and return the accumulated results. -/
def submitAssemble (out : LoopAcc × Option Err) : SubmitOut :=
  match out.2 with
  | some e => ⟨Except.error e, out.1.trace, out.1.state⟩
  | none =>
    if out.1.excedidas = [] then
      match generate_tickets_pdf out.1.resultados with
      | Except.error e => ⟨Except.error e, out.1.trace, out.1.state⟩
      | Except.ok pages =>
        ⟨Except.ok ⟨out.1.resultados, some pages, out.1.excedidas⟩,
         out.1.trace, out.1.state⟩
    else ⟨Except.ok ⟨out.1.resultados, none, out.1.excedidas⟩, out.1.trace, out.1.state⟩

/-- `submit_tickets` from the source.  `cfg` is the contents of the
configuration table, `ts` the registration timestamp (`now_str`), `acks`
the store's acknowledgement oracle (one `updatedRange` per append, in
order), `st` the initial store state. -/
def submit_tickets (cfg : List Row) (areas : List Str)
    (nome telefone bairro rede_social email ts : Str)
    (acks : Nat → Str) (st : SheetsState) : SubmitOut :=
  if areas = [] then
    ⟨Except.error (Err.valueError (S "Selecione ao menos uma área ativa.")), [], st⟩
  else
    match read_active_areas cfg with
    | Except.error e => ⟨Except.error e, [Ev.readCfg], st⟩
    | Except.ok infos =>
      let nome_fmt := format_name_upper nome
      if nome_fmt = [] then
        ⟨Except.error (Err.valueError (S "Nome é obrigatório.")), [Ev.readCfg], st⟩
      else
        match format_phone_number telefone with
        | Except.error e => ⟨Except.error e, [Ev.readCfg], st⟩
        | Except.ok telefone_fmt =>
          submitAssemble (submitLoop (sheetLookup infos) (limitLookup infos) nome_fmt
            telefone_fmt (pyStrip bairro) (pyStrip rede_social) (pyStrip email) ts acks areas 0
            ⟨[], [], [Ev.readCfg], st⟩)

/-- Spec-side: the active-flag cell of a row, defaulting to `"Sim"` when
the column or the cell is absent. -/
def specActiveCell (ativa_idx : Option Nat) (row : Row) : Str :=
  match ativa_idx with
  | some ci => if ci < row.length then cellAt row ci else S "Sim"
  | none => S "Sim"

/-- Spec-side: a configuration row is returned exactly when its area
name is non-blank and its active field parses as truthy (defaulting to
active). -/
def specRowActive (area_idx : Nat) (ativa_idx : Option Nat) (row : Row) : Bool :=
  decide (¬ pyStrip (cellAt row area_idx) = []) && _truthy (specActiveCell ativa_idx row)

/-- Spec-side: the area record built from a kept configuration row
(destination defaults to the area's own name, quota parsed best-effort). -/
def specAreaOf (area_idx : Nat) (aba_idx max_idx : Option Nat) (row : Row) : AreaInfo :=
  let area := pyStrip (cellAt row area_idx)
  let base := match aba_idx with
    | some bi => if bi < row.length then cellAt row bi else area
    | none => area
  let sheet_title := if pyStrip base = [] then area else pyStrip base
  let max_val : Option Str := match max_idx with
    | some mi => if mi < row.length then some (cellAt row mi) else none
    | none => none
  ⟨area, sheet_title, true, _parse_positive_int max_val⟩
/-- Default page value for positional indexing. -/
def emptyPage : Page := ⟨[], [], [], [], [], [], [], []⟩
/-- One registration dict per requested area, in the caller-supplied
order, carrying the ticket number issued for that area. -/
def expectedResultados (ls : Str → Option Str) (nf tf bf rf ef ts : Str)
    (senhaOf : Nat → Nat) : List Str → Nat → List Dict
  | [], _ => []
  | a :: rest, k =>
    mkRegistro a (sheetFor ls a) (senhaOf k) nf tf bf rf ef ts ::
      expectedResultados ls nf tf bf rf ef ts senhaOf rest (k + 1)

/-- Exactly the areas whose configured maximum is exceeded by their
issued number, with the limit and the actual number. -/
def expectedExcedidas (ll : Str → Option Nat) (senhaOf : Nat → Nat) :
    List Str → Nat → List Exceeded
  | [], _ => []
  | a :: rest, k =>
    (match ll a with
     | some l => if l < senhaOf k then [⟨a, l, senhaOf k⟩] else []
     | none => []) ++ expectedExcedidas ll senhaOf rest (k + 1)

/-! ### Character-level lemmas -/

theorem charUpper_eq_of_none {c : Char}
    (h : upperPairs.find? (fun p => p.1 == c) = none) : charUpper c = c := by
  unfold charUpper
  rw [h]

theorem charUpper_eq_of_some {c : Char} {p : Char × Char}
    (h : upperPairs.find? (fun q => q.1 == c) = some p) : charUpper c = p.2 := by
  unfold charUpper
  rw [h]

theorem upperPairs_snd_not_key :
    ∀ p ∈ upperPairs, upperPairs.find? (fun q => q.1 == p.2) = none := by decide

theorem upperPairs_no_ws :
    ∀ p ∈ upperPairs, isWS p.1 = false ∧ isWS p.2 = false := by decide

theorem charUpper_charUpper (c : Char) : charUpper (charUpper c) = charUpper c := by
  cases h : upperPairs.find? (fun q => q.1 == c) with
  | none => rw [charUpper_eq_of_none h]; exact charUpper_eq_of_none h
  | some p =>
    rw [charUpper_eq_of_some h]
    exact charUpper_eq_of_none (upperPairs_snd_not_key p (List.mem_of_find?_eq_some h))

theorem isWS_charUpper (c : Char) : isWS (charUpper c) = isWS c := by
  cases h : upperPairs.find? (fun q => q.1 == c) with
  | none => rw [charUpper_eq_of_none h]
  | some p =>
    have hmem := List.mem_of_find?_eq_some h
    have hc : p.1 = c := by
      have := List.find?_some h
      simpa using this
    rw [charUpper_eq_of_some h, (upperPairs_no_ws p hmem).2, ← hc,
      (upperPairs_no_ws p hmem).1]

theorem isDigit_eq_false_of_isWS {c : Char} (h : isWS c = true) : c.isDigit = false := by
  have hd : c = ' ' ∨ c = '\t' ∨ c = '\r' ∨ c = '\n' := by
    revert h
    unfold isWS Char.isWhitespace
    simp only [Bool.or_eq_true, decide_eq_true_eq]
    intro h
    tauto
  rcases hd with h | h | h | h <;> subst h <;> decide

/-! ### Strip-level lemmas -/

theorem head?_dropWhile_false (p : Char → Bool) :
    ∀ (l : Str) (c : Char), (l.dropWhile p).head? = some c → p c = false := by
  intro l
  induction l with
  | nil => intro c h; simp [List.dropWhile] at h
  | cons a t ih =>
    intro c h
    by_cases hp : p a
    · rw [List.dropWhile_cons_of_pos hp] at h
      exact ih c h
    · rw [List.dropWhile_cons_of_neg hp] at h
      simp at h
      subst h
      simpa using hp

theorem dropWhile_eq_self_of_head? (p : Char → Bool) (l : Str)
    (h : ∀ c, l.head? = some c → p c = false) : l.dropWhile p = l := by
  cases l with
  | nil => rfl
  | cons a t =>
    have := h a rfl
    simp [List.dropWhile, this]

theorem getLast?_dropWhile (p : Char → Bool) :
    ∀ l : Str, l.dropWhile p ≠ [] → (l.dropWhile p).getLast? = l.getLast? := by
  intro l
  induction l with
  | nil => intro h; simp [List.dropWhile] at h
  | cons a t ih =>
    intro h
    by_cases hp : p a
    · rw [List.dropWhile_cons_of_pos hp] at h ⊢
      cases t with
      | nil => simp [List.dropWhile] at h
      | cons b t2 => rw [ih h, List.getLast?_cons_cons]
    · rw [List.dropWhile_cons_of_neg hp]

/-- `pyStrip` leaves a string alone when its first and last characters are
not whitespace. -/
theorem pyStrip_eq_self_of_ends (m : Str)
    (h1 : ∀ c, m.head? = some c → isWS c = false)
    (h2 : ∀ c, m.getLast? = some c → isWS c = false) : pyStrip m = m := by
  unfold pyStrip
  rw [dropWhile_eq_self_of_head? isWS m h1]
  rw [dropWhile_eq_self_of_head? isWS m.reverse
    (by intro c hc; exact h2 c (by rwa [List.head?_reverse] at hc))]
  exact List.reverse_reverse m

theorem pyStrip_head? (l : Str) :
    ∀ c, (pyStrip l).head? = some c → isWS c = false := by
  intro c hc
  unfold pyStrip at hc
  rw [List.head?_reverse] at hc
  by_cases hB : (l.dropWhile isWS).reverse.dropWhile isWS = []
  · rw [hB] at hc; simp at hc
  · rw [getLast?_dropWhile isWS _ hB, List.getLast?_reverse] at hc
    exact head?_dropWhile_false isWS l c hc

theorem pyStrip_getLast? (l : Str) :
    ∀ c, (pyStrip l).getLast? = some c → isWS c = false := by
  intro c hc
  unfold pyStrip at hc
  rw [List.getLast?_reverse] at hc
  exact head?_dropWhile_false isWS _ c hc

theorem pyStrip_idem (l : Str) : pyStrip (pyStrip l) = pyStrip l :=
  pyStrip_eq_self_of_ends (pyStrip l) (pyStrip_head? l) (pyStrip_getLast? l)

theorem pyStrip_map_of_ws_pres (f : Char → Char) (hf : ∀ c, isWS (f c) = isWS c)
    (l : Str) : pyStrip (l.map f) = (pyStrip l).map f := by
  have hfe : isWS ∘ f = isWS := by funext c; exact hf c
  unfold pyStrip
  rw [List.dropWhile_map, hfe, ← List.map_reverse, List.dropWhile_map, hfe, ← List.map_reverse]

theorem dropWhile_eq_self_of_all (p : Char → Bool) (l : Str)
    (h : ∀ c ∈ l, p c = false) : l.dropWhile p = l := by
  apply dropWhile_eq_self_of_head? p
  intro c hc
  exact h c (List.mem_of_mem_head? hc)

theorem pyStrip_eq_self_of_all (l : Str) (h : ∀ c ∈ l, isWS c = false) :
    pyStrip l = l := by
  unfold pyStrip
  rw [dropWhile_eq_self_of_all isWS l h,
    dropWhile_eq_self_of_all isWS l.reverse (by intro c hc; exact h c (by simpa using hc)),
    List.reverse_reverse]

theorem filter_digit_dropWhile_ws :
    ∀ l : Str, (l.dropWhile isWS).filter Char.isDigit = l.filter Char.isDigit := by
  intro l
  induction l with
  | nil => rfl
  | cons a t ih =>
    by_cases hp : isWS a
    · rw [List.dropWhile_cons_of_pos hp, ih, List.filter_cons,
        isDigit_eq_false_of_isWS hp]
      simp
    · rw [List.dropWhile_cons_of_neg hp]

theorem digitsOf_pyStrip (l : Str) : digitsOf (pyStrip l) = digitsOf l := by
  unfold digitsOf pyStrip
  rw [List.filter_reverse, filter_digit_dropWhile_ws, List.filter_reverse,
    List.reverse_reverse, filter_digit_dropWhile_ws]

/-! ### Name-formatting lemmas -/

theorem map_charUpper_map_charUpper (l : Str) :
    (l.map charUpper).map charUpper = l.map charUpper := by
  rw [List.map_map]
  exact List.map_congr_left (fun c _ => charUpper_charUpper c)

theorem format_name_upper_idem (s : Str) :
    format_name_upper (format_name_upper s) = format_name_upper s := by
  unfold format_name_upper
  rw [pyStrip_map_of_ws_pres charUpper isWS_charUpper, pyStrip_idem,
    map_charUpper_map_charUpper]

theorem format_name_upper_stripped (s : Str) :
    pyStrip (format_name_upper s) = format_name_upper s := by
  unfold format_name_upper
  rw [pyStrip_map_of_ws_pres charUpper isWS_charUpper, pyStrip_idem]

theorem format_name_upper_upper (s : Str) :
    (format_name_upper s).map charUpper = format_name_upper s := by
  unfold format_name_upper
  exact map_charUpper_map_charUpper (pyStrip s)

/-! ### Digit-string lemmas -/

theorem digitChar_isDigit (d : Nat) : (digitChar d).isDigit = true := by
  unfold digitChar
  repeat' split
  all_goals decide

theorem digitChar_not_ws (d : Nat) : isWS (digitChar d) = false := by
  unfold digitChar
  repeat' split
  all_goals decide

theorem natToStrAux_mem (P : Char → Prop) (hP : ∀ d, P (digitChar d)) :
    ∀ (fuel n : Nat) (acc : Str), (∀ c ∈ acc, P c) →
      ∀ c ∈ natToStrAux fuel n acc, P c := by
  intro fuel
  induction fuel with
  | zero => intro n acc hacc c hc; exact hacc c hc
  | succ fuel ih =>
    intro n acc hacc c hc
    unfold natToStrAux at hc
    by_cases hn : n = 0
    · rw [if_pos hn] at hc; exact hacc c hc
    · rw [if_neg hn] at hc
      refine ih (n / 10) (digitChar (n % 10) :: acc) ?_ c hc
      intro c2 hc2
      rcases List.mem_cons.mp hc2 with h | h
      · subst h; exact hP (n % 10)
      · exact hacc c2 h

theorem natToStr_mem (P : Char → Prop) (hP : ∀ d, P (digitChar d)) (n : Nat) :
    ∀ c ∈ natToStr n, P c := by
  intro c hc
  unfold natToStr at hc
  by_cases hn : n = 0
  · rw [if_pos hn] at hc
    rcases List.mem_singleton.mp hc with h
    subst h; exact hP 0
  · rw [if_neg hn] at hc
    exact natToStrAux_mem P hP n n [] (by intro c2 hc2; simp at hc2) c hc

theorem pyStrip_natToStr (n : Nat) : pyStrip (natToStr n) = natToStr n :=
  pyStrip_eq_self_of_all (natToStr n)
    (fun c hc => natToStr_mem (fun c2 => isWS c2 = false) digitChar_not_ws n c hc)

/-! ### Phone-normalizer lemmas -/

theorem mem_phone_digits_stripped (s : Str) :
    ∀ c ∈ phone_digits_stripped s, c.isDigit = true := by
  intro c hc
  unfold phone_digits_stripped at hc
  simp only [digitsOf] at hc
  split at hc
  · exact List.of_mem_filter (List.mem_of_mem_drop hc)
  · exact List.of_mem_filter hc

theorem phone_digits_stripped_ne_nil (s : Str)
    (h : (phone_digits_stripped s).length = 11) : digitsOf (pyStrip s) ≠ [] := by
  intro hD
  unfold phone_digits_stripped at h
  rw [hD] at h
  simp at h

/-- C9: `format_name_upper` is idempotent, and its result is always
upper-case with no leading or trailing whitespace. -/
theorem claim_C9_format_name_upper (s : Str) :
    format_name_upper (format_name_upper s) = format_name_upper s ∧
    (format_name_upper s).map charUpper = format_name_upper s ∧
    pyStrip (format_name_upper s) = format_name_upper s :=
  ⟨format_name_upper_idem s, format_name_upper_upper s, format_name_upper_stripped s⟩

/-- Case analysis of `format_phone_number` (shared helper). -/
theorem format_phone_number_cases (s : Str) :
    ((phone_digits_stripped s).length = 11 →
      ∃ loc : Str,
        loc = (phone_digits_stripped s).drop ((phone_digits_stripped s).length - 9) ∧
        format_phone_number s =
          Except.ok (S "(92) " ++ loc.take 5 ++ S "-" ++ loc.drop 5) ∧
        loc.length = 9 ∧ (∀ c ∈ loc, c.isDigit = true)) ∧
    ((phone_digits_stripped s).length ≠ 11 →
      ∃ m, format_phone_number s = Except.error (Err.valueError m)) := by
  constructor
  · intro h
    have hDne : digitsOf (pyStrip s) ≠ [] := phone_digits_stripped_ne_nil s h
    have htne : ¬ pyStrip s = [] := by
      intro ht
      exact hDne (by rw [ht]; rfl)
    refine ⟨(phone_digits_stripped s).drop ((phone_digits_stripped s).length - 9),
      rfl, ?_, ?_, ?_⟩
    · simp only [format_phone_number]
      rw [if_neg htne, if_neg hDne, if_pos h]
    · rw [List.length_drop, h]
    · intro c hc
      exact mem_phone_digits_stripped s c (List.mem_of_mem_drop hc)
  · intro h
    by_cases h1 : pyStrip s = []
    · exact ⟨_, by simp only [format_phone_number]; rw [if_pos h1]⟩
    by_cases h2 : digitsOf (pyStrip s) = []
    · exact ⟨_, by simp only [format_phone_number]; rw [if_neg h1, if_pos h2]⟩
    · exact ⟨_, by simp only [format_phone_number]; rw [if_neg h1, if_neg h2, if_neg h]⟩

/-- C4: whenever the digit content of the input (after stripping a
country-code prefix `55` from digit strings longer than 11) is exactly
11 digits, `format_phone_number` returns `"(92) "` followed by the first
five and (after a dash) last four of the last nine digits — a string of
shape `(NN) NNNNN-NNNN` with the fixed area code; whenever that digit
count is not 11 (including empty input), it fails with a `ValueError`. -/
theorem claim_C4_format_phone_number (s : Str) :
    ((phone_digits_stripped s).length = 11 →
      ∃ loc : Str,
        loc = (phone_digits_stripped s).drop ((phone_digits_stripped s).length - 9) ∧
        format_phone_number s =
          Except.ok (S "(92) " ++ loc.take 5 ++ S "-" ++ loc.drop 5) ∧
        loc.length = 9 ∧ (∀ c ∈ loc, c.isDigit = true)) ∧
    ((phone_digits_stripped s).length ≠ 11 →
      ∃ m, format_phone_number s = Except.error (Err.valueError m)) :=
  format_phone_number_cases s

/-- Witness for C4 at the concrete input `"5592981234567"`. -/
theorem claim_C4_witness :
    ∃ loc : Str,
      loc = (phone_digits_stripped (S "5592981234567")).drop
        ((phone_digits_stripped (S "5592981234567")).length - 9) ∧
      format_phone_number (S "5592981234567") =
        Except.ok (S "(92) " ++ loc.take 5 ++ S "-" ++ loc.drop 5) ∧
      loc.length = 9 ∧ (∀ c ∈ loc, c.isDigit = true) :=
  (claim_C4_format_phone_number (S "5592981234567")).1 (by decide)

/-! ### Lemmas on the ticket-number assignment -/

theorem ensure_trace_cases (st : SheetsState) (title : Str) :
    (ensure_area_sheet st title).1 = [Ev.getMeta, Ev.addSheet title, Ev.writeHeader title] ∨
    (ensure_area_sheet st title).1 = [Ev.getMeta, Ev.readRow1 title, Ev.writeHeader title] ∨
    (ensure_area_sheet st title).1 = [Ev.getMeta, Ev.readRow1 title] := by
  unfold ensure_area_sheet
  split
  · left; rfl
  · split
    · right; left; rfl
    · right; right; rfl

theorem ensure_trace_no_append (st : SheetsState) (title : Str) :
    ∀ t r, Ev.append t r ∉ (ensure_area_sheet st title).1 := by
  intro t r
  rcases ensure_trace_cases st title with h | h | h <;> rw [h] <;> simp

theorem ensure_trace_no_writeNum (st : SheetsState) (title : Str) :
    ∀ t i v, Ev.writeNumCell t i v ∉ (ensure_area_sheet st title).1 := by
  intro t i v
  rcases ensure_trace_cases st title with h | h | h <;> rw [h] <;> simp

/-- Equation for `append_ticket_and_get_number` on a parseable acknowledgement. -/
theorem atgn_parsed (st : SheetsState) (title : Str) (row : Row) (ack : Str) (n : Nat)
    (h : parseUpdatedRange ack = some n) :
    append_ticket_and_get_number st title row ack =
      ⟨Except.ok (max 1 (n - 1)),
       (ensure_area_sheet st title).1 ++
         [Ev.append title row, Ev.writeNumCell title n (natToStr (max 1 (n - 1)))],
       setSheetRows
         (setSheetRows (ensure_area_sheet st title).2 title (fun rs => rs ++ [row]))
         title (fun rs => setCellA rs n (natToStr (max 1 (n - 1))))⟩ := by
  unfold append_ticket_and_get_number
  rw [h]
  simp

/-- Equation for `append_ticket_and_get_number` on an unparseable acknowledgement. -/
theorem atgn_failed (st : SheetsState) (title : Str) (row : Row) (ack : Str)
    (h : parseUpdatedRange ack = none) :
    append_ticket_and_get_number st title row ack =
      ⟨Except.error (Err.runtimeError
          (S "Não foi possível detectar a linha inserida: " ++ ack)),
       (ensure_area_sheet st title).1 ++ [Ev.append title row],
       setSheetRows (ensure_area_sheet st title).2 title (fun rs => rs ++ [row])⟩ := by
  unfold append_ticket_and_get_number
  rw [h]

theorem atgn_append_mem (st : SheetsState) (title : Str) (row : Row) (ack : Str) :
    ∀ t r, Ev.append t r ∈ (append_ticket_and_get_number st title row ack).trace →
      t = title ∧ r = row := by
  intro t r h
  cases hp : parseUpdatedRange ack with
  | none =>
    rw [atgn_failed st title row ack hp] at h
    rw [List.mem_append] at h
    rcases h with h | h
    · exact absurd h (ensure_trace_no_append st title t r)
    · simp at h
      exact ⟨h.1, h.2⟩
  | some n =>
    rw [atgn_parsed st title row ack n hp] at h
    rw [List.mem_append] at h
    rcases h with h | h
    · exact absurd h (ensure_trace_no_append st title t r)
    · simp at h
      exact ⟨h.1, h.2⟩

theorem atgn_writeNum_mem (st : SheetsState) (title : Str) (row : Row) (ack : Str) :
    ∀ t i v, Ev.writeNumCell t i v ∈ (append_ticket_and_get_number st title row ack).trace →
      t = title ∧ parseUpdatedRange ack = some i ∧ v = natToStr (max 1 (i - 1)) := by
  intro t i v h
  cases hp : parseUpdatedRange ack with
  | none =>
    rw [atgn_failed st title row ack hp] at h
    rw [List.mem_append] at h
    rcases h with h | h
    · exact absurd h (ensure_trace_no_writeNum st title t i v)
    · simp at h
  | some n =>
    rw [atgn_parsed st title row ack n hp] at h
    rw [List.mem_append] at h
    rcases h with h | h
    · exact absurd h (ensure_trace_no_writeNum st title t i v)
    · simp at h
      simp_all

theorem atgn_append_in_trace (st : SheetsState) (title : Str) (row : Row) (ack : Str) :
    Ev.append title row ∈ (append_ticket_and_get_number st title row ack).trace := by
  cases hp : parseUpdatedRange ack with
  | none => rw [atgn_failed st title row ack hp]; simp
  | some n => rw [atgn_parsed st title row ack n hp]; simp

theorem atgn_trace_split (st : SheetsState) (title : Str) (row : Row) (ack : Str) :
    ∃ pre post, (append_ticket_and_get_number st title row ack).trace =
        pre ++ Ev.append title row :: post ∧
      ∀ t i v, Ev.writeNumCell t i v ∉ pre := by
  cases hp : parseUpdatedRange ack with
  | none =>
    refine ⟨(ensure_area_sheet st title).1, [], ?_, ensure_trace_no_writeNum st title⟩
    rw [atgn_failed st title row ack hp]
  | some n =>
    refine ⟨(ensure_area_sheet st title).1,
      [Ev.writeNumCell title n (natToStr (max 1 (n - 1)))], ?_,
      ensure_trace_no_writeNum st title⟩
    rw [atgn_parsed st title row ack n hp]

/-- C10: whenever a row position is parsed from the acknowledgement
(including positions 0 and 1), the returned ticket number is
`max 1 (pos - 1)`, hence at least 1 — never zero. -/
theorem claim_C10_clamped_at_one (st : SheetsState) (title : Str) (row : Row) (ack : Str)
    (n : Nat) (h : parseUpdatedRange ack = some n) :
    (append_ticket_and_get_number st title row ack).ret = Except.ok (max 1 (n - 1)) ∧
    1 ≤ max 1 (n - 1) := by
  rw [atgn_parsed st title row ack n h]
  exact ⟨rfl, le_max_left 1 (n - 1)⟩

/-- Witness for C10 at acknowledged row position 0 (`"Area!A0"`). -/
theorem claim_C10_witness :
    (append_ticket_and_get_number [] (S "Area") [[], S "N"] (S "Area!A0")).ret =
      Except.ok (max 1 (0 - 1)) ∧ 1 ≤ max 1 (0 - 1) :=
  claim_C10_clamped_at_one [] (S "Area") [[], S "N"] (S "Area!A0") 0 (by decide)

/-- C6: on an acknowledgement with no parseable row position the
function raises a `RuntimeError` (persistence error), performs exactly
one append (no retry), and writes no ticket-number cell at all. -/
theorem claim_C6_unparseable_ack (st : SheetsState) (title : Str) (row : Row) (ack : Str)
    (h : parseUpdatedRange ack = none) :
    (append_ticket_and_get_number st title row ack).ret =
      Except.error (Err.runtimeError
        (S "Não foi possível detectar a linha inserida: " ++ ack)) ∧
    ((append_ticket_and_get_number st title row ack).trace.filter
        (fun e => match e with | Ev.append _ _ => true | _ => false)) =
      [Ev.append title row] ∧
    (∀ t i v, Ev.writeNumCell t i v ∉ (append_ticket_and_get_number st title row ack).trace) := by
  rw [atgn_failed st title row ack h]
  refine ⟨rfl, ?_, ?_⟩
  · rw [List.filter_append]
    rcases ensure_trace_cases st title with he | he | he <;> rw [he] <;> rfl
  · intro t i v hmem
    rw [List.mem_append] at hmem
    rcases hmem with hmem | hmem
    · exact ensure_trace_no_writeNum st title t i v hmem
    · simp at hmem

/-- Witness for C6 at the concrete acknowledgement `"sem separador"`. -/
theorem claim_C6_witness :
    (append_ticket_and_get_number [] (S "Area") [[], S "N"] (S "sem separador")).ret =
      Except.error (Err.runtimeError
        (S "Não foi possível detectar a linha inserida: " ++ S "sem separador")) :=
  (claim_C6_unparseable_ack [] (S "Area") [[], S "N"] (S "sem separador") (by decide)).1

/-- C1 counterexample: the acknowledgement `"Area!A1"` yields row
position 1, and the function returns ticket number 1, not
`1 - 1 = 0` as the claim's "row position minus one" demands. -/
theorem claim_C1_counterexample :
    parseUpdatedRange (S "Area!A1") = some 1 ∧
    (append_ticket_and_get_number [] (S "Area") [[], S "N"] (S "Area!A1")).ret =
      Except.ok 1 ∧
    (1 : Nat) ≠ 1 - 1 :=
  ⟨by decide, by rfl, by decide⟩

/-- C1 (amended): for every acknowledgement with parseable row position
`n`, the function returns `max 1 (n - 1)` — equal to `n - 1` whenever
`n ≥ 2`, i.e. for every data row below the header — and rewrites the
leading cell of row `n` with that number as text. -/
theorem claim_C1_number_and_rewrite (st : SheetsState) (title : Str) (row : Row) (ack : Str)
    (n : Nat) (h : parseUpdatedRange ack = some n) :
    (append_ticket_and_get_number st title row ack).ret = Except.ok (max 1 (n - 1)) ∧
    (append_ticket_and_get_number st title row ack).trace =
      (ensure_area_sheet st title).1 ++
        [Ev.append title row, Ev.writeNumCell title n (natToStr (max 1 (n - 1)))] ∧
    (2 ≤ n → max 1 (n - 1) = n - 1) := by
  rw [atgn_parsed st title row ack n h]
  refine ⟨rfl, rfl, ?_⟩
  intro h2
  omega

/-- Witness for the amended C1 at acknowledgement `"Area!A5:H5"`. -/
theorem claim_C1_witness :
    (append_ticket_and_get_number [] (S "Area") [[], S "N"] (S "Area!A5:H5")).ret =
      Except.ok 4 := by
  have h := (claim_C1_number_and_rewrite [] (S "Area") [[], S "N"] (S "Area!A5:H5") 5
    (by decide)).1
  simpa using h

/-! ### Lemmas on the submission loop -/

theorem submitLoop_trace_extends (ls : Str → Option Str) (ll : Str → Option Nat)
    (nf tf bf rf ef ts : Str) (acks : Nat → Str) :
    ∀ (rest : List Str) (k : Nat) (acc : LoopAcc),
      ∃ tr2, (submitLoop ls ll nf tf bf rf ef ts acks rest k acc).1.trace =
        acc.trace ++ tr2 := by
  intro rest
  induction rest with
  | nil => intro k acc; exact ⟨[], by simp [submitLoop]⟩
  | cons area rest ih =>
    intro k acc
    simp only [submitLoop]
    cases hr : (append_ticket_and_get_number acc.state (sheetFor ls area)
        (theRow nf tf rf ef bf ts) (acks k)).ret with
    | error e =>
      exact ⟨(append_ticket_and_get_number acc.state (sheetFor ls area)
        (theRow nf tf rf ef bf ts) (acks k)).trace, rfl⟩
    | ok senha =>
      obtain ⟨tr2, htr⟩ := ih (k + 1)
        { resultados := acc.resultados ++ [mkRegistro area (sheetFor ls area) senha
            nf tf bf rf ef ts],
          excedidas := match ll area with
            | some l => if l < senha then acc.excedidas ++ [⟨area, l, senha⟩]
                        else acc.excedidas
            | none => acc.excedidas,
          trace := acc.trace ++ (append_ticket_and_get_number acc.state (sheetFor ls area)
            (theRow nf tf rf ef bf ts) (acks k)).trace,
          state := (append_ticket_and_get_number acc.state (sheetFor ls area)
            (theRow nf tf rf ef bf ts) (acks k)).state }
      refine ⟨(append_ticket_and_get_number acc.state (sheetFor ls area)
        (theRow nf tf rf ef bf ts) (acks k)).trace ++ tr2, ?_⟩
      rw [htr]
      simp [List.append_assoc]

theorem submitLoop_append_blank (ls : Str → Option Str) (ll : Str → Option Nat)
    (nf tf bf rf ef ts : Str) (acks : Nat → Str) :
    ∀ (rest : List Str) (k : Nat) (acc : LoopAcc),
      (∀ t rw, Ev.append t rw ∈ acc.trace → rw.head? = some ([] : Str)) →
      ∀ t rw, Ev.append t rw ∈ (submitLoop ls ll nf tf bf rf ef ts acks rest k acc).1.trace →
        rw.head? = some ([] : Str) := by
  intro rest
  induction rest with
  | nil => intro k acc hacc t rw h; exact hacc t rw (by simpa [submitLoop] using h)
  | cons area rest ih =>
    intro k acc hacc t rw h
    simp only [submitLoop] at h
    have hstep : ∀ t2 rw2,
        Ev.append t2 rw2 ∈ acc.trace ++ (append_ticket_and_get_number acc.state
          (sheetFor ls area) (theRow nf tf rf ef bf ts) (acks k)).trace →
        rw2.head? = some ([] : Str) := by
      intro t2 rw2 h2
      rw [List.mem_append] at h2
      rcases h2 with h2 | h2
      · exact hacc t2 rw2 h2
      · have := (atgn_append_mem acc.state (sheetFor ls area)
          (theRow nf tf rf ef bf ts) (acks k) t2 rw2 h2).2
        rw [this]
        rfl
    cases hr : (append_ticket_and_get_number acc.state (sheetFor ls area)
        (theRow nf tf rf ef bf ts) (acks k)).ret with
    | error e =>
      rw [hr] at h
      exact hstep t rw h
    | ok senha =>
      rw [hr] at h
      exact ih (k + 1) _ hstep t rw h

/-- The assembled submission result always carries the loop's trace. -/
theorem submitAssemble_trace (out : LoopAcc × Option Err) :
    (submitAssemble out).trace = out.1.trace := by
  unfold submitAssemble
  rcases out with ⟨acc, err⟩
  cases err with
  | some e => rfl
  | none =>
    by_cases h : acc.excedidas = []
    · rw [if_pos h]
      cases generate_tickets_pdf acc.resultados with
      | error e => rfl
      | ok pages => rfl
    · rw [if_neg h]

/-- The assembled submission result always carries the loop's state. -/
theorem submitAssemble_state (out : LoopAcc × Option Err) :
    (submitAssemble out).state = out.1.state := by
  unfold submitAssemble
  rcases out with ⟨acc, err⟩
  cases err with
  | some e => rfl
  | none =>
    by_cases h : acc.excedidas = []
    · rw [if_pos h]
      cases generate_tickets_pdf acc.resultados with
      | error e => rfl
      | ok pages => rfl
    · rw [if_neg h]

theorem submit_append_blank (cfg : List Row) (areas : List Str)
    (nome telefone bairro rede_social email ts : Str) (acks : Nat → Str) (st : SheetsState) :
    ∀ t rw, Ev.append t rw ∈
        (submit_tickets cfg areas nome telefone bairro rede_social email ts acks st).trace →
      rw.head? = some ([] : Str) := by
  intro t rw h
  unfold submit_tickets at h
  by_cases ha : areas = []
  · rw [if_pos ha] at h
    simp at h
  rw [if_neg ha] at h
  cases hr : read_active_areas cfg with
  | error e => simp only [hr] at h; simp at h
  | ok infos =>
    simp only [hr] at h
    by_cases hn : format_name_upper nome = []
    · rw [if_pos hn] at h; simp at h
    rw [if_neg hn] at h
    cases hp : format_phone_number telefone with
    | error e => simp only [hp] at h; simp at h
    | ok tf =>
      simp only [hp] at h
      rw [submitAssemble_trace] at h
      refine submitLoop_append_blank (sheetLookup infos) (limitLookup infos)
        (format_name_upper nome) tf (pyStrip bairro) (pyStrip rede_social) (pyStrip email)
        ts acks areas 0 ⟨[], [], [Ev.readCfg], st⟩ ?_ t rw h
      intro t2 rw2 h2
      simp at h2

/-- C2: a ticket number reaches the store only as derived from the
acknowledged insertion point.  Rows reach the store only as the caller's
unmodified row (whose leading ticket cell is blank in every submission),
there is an append such that no ticket-number cell write precedes it,
and every ticket-number cell write targets the acknowledged row and
carries exactly the number computed from it. -/
theorem claim_C2_number_derived_from_ack (st : SheetsState) (title : Str) (row : Row)
    (ack : Str) :
    (∀ t r, Ev.append t r ∈ (append_ticket_and_get_number st title row ack).trace →
      t = title ∧ r = row) ∧
    (∃ pre post, (append_ticket_and_get_number st title row ack).trace =
        pre ++ Ev.append title row :: post ∧
      ∀ t i v, Ev.writeNumCell t i v ∉ pre) ∧
    (∀ t i v, Ev.writeNumCell t i v ∈ (append_ticket_and_get_number st title row ack).trace →
      t = title ∧ parseUpdatedRange ack = some i ∧ v = natToStr (max 1 (i - 1))) ∧
    (∀ cfg areas nome telefone bairro rede_social email ts acks st2 t rw,
      Ev.append t rw ∈
          (submit_tickets cfg areas nome telefone bairro rede_social email ts acks st2).trace →
        rw.head? = some ([] : Str)) :=
  ⟨atgn_append_mem st title row ack,
   atgn_trace_split st title row ack,
   atgn_writeNum_mem st title row ack,
   fun cfg areas nome telefone bairro rede_social email ts acks st2 =>
     submit_append_blank cfg areas nome telefone bairro rede_social email ts acks st2⟩

/-- Witness for C2 at a concrete execution: the append precedes any
ticket-number write. -/
theorem claim_C2_witness :
    ∃ pre post,
      (append_ticket_and_get_number [] (S "A") [[], S "N"] (S "A!A2:H2")).trace =
        pre ++ Ev.append (S "A") [[], S "N"] :: post ∧
      ∀ t i v, Ev.writeNumCell t i v ∉ pre :=
  (claim_C2_number_derived_from_ack [] (S "A") [[], S "N"] (S "A!A2:H2")).2.1

/-! ### Submission failure branches -/

theorem fpn_error_is_valueError (s : Str) (e : Err)
    (h : format_phone_number s = Except.error e) : ∃ m, e = Err.valueError m := by
  by_cases hl : (phone_digits_stripped s).length = 11
  · obtain ⟨loc, _, hok, _, _⟩ := (format_phone_number_cases s).1 hl
    rw [h] at hok
    cases hok
  · obtain ⟨m, hm⟩ := (format_phone_number_cases s).2 hl
    rw [h] at hm
    exact ⟨m, Except.error.inj hm⟩

theorem submit_empty_areas (cfg : List Row) (areas : List Str)
    (nome telefone bairro rede_social email ts : Str) (acks : Nat → Str) (st : SheetsState)
    (h : areas = []) :
    submit_tickets cfg areas nome telefone bairro rede_social email ts acks st =
      ⟨Except.error (Err.valueError (S "Selecione ao menos uma área ativa.")), [], st⟩ := by
  unfold submit_tickets
  rw [if_pos h]

theorem submit_cfg_error (cfg : List Row) (areas : List Str)
    (nome telefone bairro rede_social email ts : Str) (acks : Nat → Str) (st : SheetsState)
    (h : areas ≠ []) (e : Err) (he : read_active_areas cfg = Except.error e) :
    submit_tickets cfg areas nome telefone bairro rede_social email ts acks st =
      ⟨Except.error e, [Ev.readCfg], st⟩ := by
  unfold submit_tickets
  rw [if_neg h]
  simp only [he]

theorem submit_name_error (cfg : List Row) (areas : List Str)
    (nome telefone bairro rede_social email ts : Str) (acks : Nat → Str) (st : SheetsState)
    (h : areas ≠ []) (infos : List AreaInfo) (hr : read_active_areas cfg = Except.ok infos)
    (hn : format_name_upper nome = []) :
    submit_tickets cfg areas nome telefone bairro rede_social email ts acks st =
      ⟨Except.error (Err.valueError (S "Nome é obrigatório.")), [Ev.readCfg], st⟩ := by
  unfold submit_tickets
  rw [if_neg h]
  simp only [hr]
  rw [if_pos hn]

theorem submit_phone_error (cfg : List Row) (areas : List Str)
    (nome telefone bairro rede_social email ts : Str) (acks : Nat → Str) (st : SheetsState)
    (h : areas ≠ []) (infos : List AreaInfo) (hr : read_active_areas cfg = Except.ok infos)
    (hn : format_name_upper nome ≠ []) (e : Err)
    (hp : format_phone_number telefone = Except.error e) :
    submit_tickets cfg areas nome telefone bairro rede_social email ts acks st =
      ⟨Except.error e, [Ev.readCfg], st⟩ := by
  unfold submit_tickets
  rw [if_neg h]
  simp only [hr]
  rw [if_neg hn]
  simp only [hp]

theorem submit_main_eq (cfg : List Row) (areas : List Str)
    (nome telefone bairro rede_social email ts : Str) (acks : Nat → Str) (st : SheetsState)
    (h : areas ≠ []) (infos : List AreaInfo) (hr : read_active_areas cfg = Except.ok infos)
    (hn : format_name_upper nome ≠ []) (tf : Str)
    (hp : format_phone_number telefone = Except.ok tf) :
    submit_tickets cfg areas nome telefone bairro rede_social email ts acks st =
      submitAssemble (submitLoop (sheetLookup infos) (limitLookup infos)
        (format_name_upper nome) tf (pyStrip bairro) (pyStrip rede_social) (pyStrip email)
        ts acks areas 0 ⟨[], [], [Ev.readCfg], st⟩) := by
  unfold submit_tickets
  rw [if_neg h]
  simp only [hr]
  rw [if_neg hn]
  simp only [hp]

/-- C7 counterexample: with a nonempty area list, an empty name and a
configuration table lacking an area-name column, the submission fails
with a Configuration (`RuntimeError`) error, not a Validation
(`ValueError`) one. -/
theorem claim_C7_counterexample :
    (submit_tickets [[S "Foo"]] [S "A"] [] (S "92981234567") [] [] [] []
        (fun _ => []) []).ret =
      Except.error (Err.runtimeError
        (S "Coluna Área (ou equivalente) não encontrada na aba Nomes.")) ∧
    ∀ m, (submit_tickets [[S "Foo"]] [S "A"] [] (S "92981234567") [] [] [] []
        (fun _ => []) []).ret ≠ Except.error (Err.valueError m) := by
  have h1 : (submit_tickets [[S "Foo"]] [S "A"] [] (S "92981234567") [] [] [] []
      (fun _ => []) []).ret =
      Except.error (Err.runtimeError
        (S "Coluna Área (ou equivalente) não encontrada na aba Nomes.")) := by rfl
  refine ⟨h1, ?_⟩
  intro m hm
  have h2 := h1.symm.trans hm
  exact Err.noConfusion (Except.error.inj h2)

/-- C7 (amended): an empty area list always fails with a Validation
error before any event is issued; and whenever the area configuration
resolves, an empty trimmed name or an unnormalizable phone fails the
whole submission with a Validation error after only the configuration
read — no append or cell write reaches the store and the store state is
unchanged.  (When the configuration itself does not resolve, the
failure is a Configuration error instead — see the counterexample.) -/
theorem claim_C7_validation_before_mutation (cfg : List Row) (areas : List Str)
    (nome telefone bairro rede_social email ts : Str) (acks : Nat → Str) (st : SheetsState) :
    (areas = [] →
      submit_tickets cfg areas nome telefone bairro rede_social email ts acks st =
        ⟨Except.error (Err.valueError (S "Selecione ao menos uma área ativa.")), [], st⟩) ∧
    (∀ infos, read_active_areas cfg = Except.ok infos → areas ≠ [] →
      format_name_upper nome = [] →
      submit_tickets cfg areas nome telefone bairro rede_social email ts acks st =
        ⟨Except.error (Err.valueError (S "Nome é obrigatório.")), [Ev.readCfg], st⟩) ∧
    (∀ infos e, read_active_areas cfg = Except.ok infos → areas ≠ [] →
      format_name_upper nome ≠ [] → format_phone_number telefone = Except.error e →
      (∃ m, e = Err.valueError m) ∧
      submit_tickets cfg areas nome telefone bairro rede_social email ts acks st =
        ⟨Except.error e, [Ev.readCfg], st⟩) ∧
    (∀ ev ∈ ([Ev.readCfg] : List Ev), ev.isMutation = false) := by
  refine ⟨?_, ?_, ?_, ?_⟩
  · intro h
    exact submit_empty_areas cfg areas nome telefone bairro rede_social email ts acks st h
  · intro infos hr ha hn
    exact submit_name_error cfg areas nome telefone bairro rede_social email ts acks st
      ha infos hr hn
  · intro infos e hr ha hn hp
    exact ⟨fpn_error_is_valueError telefone e hp,
      submit_phone_error cfg areas nome telefone bairro rede_social email ts acks st
        ha infos hr hn e hp⟩
  · intro ev hev
    simp at hev
    subst hev
    rfl

/-- Witness for the amended C7: empty name with a resolvable
configuration fails with the Validation error and only the
configuration read in the trace. -/
theorem claim_C7_witness :
    submit_tickets [[S "Area"], [S "A"]] [S "A"] [] (S "92981234567") [] [] [] []
        (fun _ => []) [] =
      ⟨Except.error (Err.valueError (S "Nome é obrigatório.")), [Ev.readCfg], []⟩ :=
  (claim_C7_validation_before_mutation [[S "Area"], [S "A"]] [S "A"] [] (S "92981234567")
      [] [] [] [] (fun _ => []) []).2.1 [⟨S "A", S "A", true, none⟩] (by rfl)
    (by decide) (by decide)

/-! ### Area-resolver refinement (spec-side formulation) -/

theorem areaRowInfo_eq_spec (ai : Nat) (aba ativa maxi : Option Nat) (row : Row) :
    areaRowInfo ai aba ativa maxi row =
      if specRowActive ai ativa row then some (specAreaOf ai aba maxi row) else none := by
  by_cases h1 : pyStrip (cellAt row ai) = []
  · have ha : specRowActive ai ativa row = false := by
      simp [specRowActive, h1]
    rw [ha]
    simp [areaRowInfo, h1]
  · by_cases h2 : _truthy (specActiveCell ativa row) = true
    · have ha : specRowActive ai ativa row = true := by
        simp [specRowActive, h1, h2]
      rw [ha]
      simp only [areaRowInfo, specAreaOf, specActiveCell] at h2 ⊢
      rw [if_neg h1]
      simp [h2]
    · have ha : specRowActive ai ativa row = false := by
        simp [specRowActive, h1, h2]
      rw [ha]
      simp only [areaRowInfo, specActiveCell] at h2 ⊢
      rw [if_neg h1]
      simp [h2]

theorem filterMap_if_spec (p : Row → Bool) (g : Row → AreaInfo)
    (f : Row → Option AreaInfo) (hf : ∀ r, f r = if p r then some (g r) else none) :
    ∀ rows : List Row, rows.filterMap f = (rows.filter p).map g := by
  intro rows
  induction rows with
  | nil => rfl
  | cons row rest ih =>
    rw [List.filterMap_cons, List.filter_cons, hf row]
    by_cases hp : p row = true
    · rw [hp]
      simp [ih]
    · have hp2 : p row = false := by
        cases hpr : p row
        · rfl
        · exact absurd hpr hp
      rw [hp2]
      simp [ih]

theorem find_col_indexes_nil (cands : List Str) :
    _find_col_indexes [] cands = none := by
  unfold _find_col_indexes
  induction cands with
  | nil => rfl
  | cons c rest ih => simp

/-- Equation for `read_active_areas` when an area column is found. -/
theorem read_active_areas_found (rows : List Row) (ai : Nat)
    (h : _find_col_indexes (rows.headD []) areaCols = some ai) :
    read_active_areas rows =
      Except.ok ((rows.tail.filter
          (specRowActive ai (_find_col_indexes (rows.headD []) ativaCols))).map
        (specAreaOf ai (_find_col_indexes (rows.headD []) abaCols)
          (_find_col_indexes (rows.headD []) maxCols))) := by
  have hne : rows ≠ [] := by
    intro he
    subst he
    rw [show ([] : List Row).headD [] = [] from rfl, find_col_indexes_nil areaCols] at h
    cases h
  unfold read_active_areas
  rw [if_neg hne]
  simp only [h]
  rw [filterMap_if_spec _ _ _ (fun r => areaRowInfo_eq_spec ai
    (_find_col_indexes (rows.headD []) abaCols)
    (_find_col_indexes (rows.headD []) ativaCols)
    (_find_col_indexes (rows.headD []) maxCols) r)]

theorem specAreaOf_sheet_default (ai : Nat) (maxi : Option Nat) (row : Row) :
    (specAreaOf ai none maxi row).sheet = (specAreaOf ai none maxi row).area := by
  simp only [specAreaOf, pyStrip_idem]
  by_cases h : pyStrip (cellAt row ai) = []
  · simp [h]
  · simp [h]

/-- C8: with a recognizable area-name column, the resolver returns
exactly the data rows whose active field (defaulting to active when the
column or cell is missing) parses as truthy, mapped to their area
records; rows without a target-store column use the area's own name as
destination; without an area-name column (in a nonempty table) it fails
with a Configuration error; and on the table
`[[Area, Ativa], [A, Sim], [B, Nao], [C, 1]]` it returns exactly A and C. -/
theorem claim_C8_area_resolver (rows : List Row) :
    (rows ≠ [] → _find_col_indexes (rows.headD []) areaCols = none →
      read_active_areas rows = Except.error (Err.runtimeError
        (S "Coluna Área (ou equivalente) não encontrada na aba Nomes."))) ∧
    (∀ ai, _find_col_indexes (rows.headD []) areaCols = some ai →
      read_active_areas rows =
        Except.ok ((rows.tail.filter
            (specRowActive ai (_find_col_indexes (rows.headD []) ativaCols))).map
          (specAreaOf ai (_find_col_indexes (rows.headD []) abaCols)
            (_find_col_indexes (rows.headD []) maxCols))) ∧
      (_find_col_indexes (rows.headD []) abaCols = none →
        ∀ info ∈ (rows.tail.filter
            (specRowActive ai (_find_col_indexes (rows.headD []) ativaCols))).map
          (specAreaOf ai (_find_col_indexes (rows.headD []) abaCols)
            (_find_col_indexes (rows.headD []) maxCols)),
          info.sheet = info.area)) ∧
    (read_active_areas
        [[S "Area", S "Ativa"], [S "A", S "Sim"], [S "B", S "Nao"], [S "C", S "1"]] =
      Except.ok [⟨S "A", S "A", true, none⟩, ⟨S "C", S "C", true, none⟩]) := by
  refine ⟨?_, ?_, by rfl⟩
  · intro hne h
    unfold read_active_areas
    rw [if_neg hne]
    simp only [h]
  · intro ai h
    refine ⟨read_active_areas_found rows ai h, ?_⟩
    intro haba info hinfo
    rw [List.mem_map] at hinfo
    obtain ⟨row, _, hrow⟩ := hinfo
    rw [haba] at hrow
    rw [← hrow]
    exact specAreaOf_sheet_default ai _ row

/-- Witness for C8: a nonempty table without an area-name column fails
with the Configuration error. -/
theorem claim_C8_witness :
    read_active_areas [[S "Foo"]] = Except.error (Err.runtimeError
      (S "Coluna Área (ou equivalente) não encontrada na aba Nomes.")) :=
  (claim_C8_area_resolver [[S "Foo"]]).1 (by decide) (by decide)

/-! ### Renderer lemmas -/

theorem render_ok_of_phone (d : Dict) (tel : Str)
    (h : format_phone_number (dget d (S "telefone") []) = Except.ok tel) :
    _render_ticket_page d = Except.ok
      ⟨pyStrip (dget d (S "area") (S "Área")),
       pyStrip (dget d (S "senha") (S "0")),
       format_name_upper (dget d (S "nome") []),
       tel,
       pyStrip (dget d (S "bairro") []),
       pyStrip (dget d (S "ts_registro") []),
       pyStrip (dget d (S "area") (S "Área")) ++ ['|'] ++
         pyStrip (dget d (S "senha") (S "0")) ++ ['|'] ++
         format_name_upper (dget d (S "nome") []),
       pyStrip (dget d (S "senha") (S "0"))⟩ := by
  unfold _render_ticket_page
  simp only [h]

theorem render_error_of_phone (d : Dict) (e : Err)
    (h : format_phone_number (dget d (S "telefone") []) = Except.error e) :
    _render_ticket_page d = Except.error e := by
  unfold _render_ticket_page
  simp only [h]

theorem generate_tickets_pdf_ok (ds : List Dict)
    (h : ∀ d ∈ ds, ∃ pg, _render_ticket_page d = Except.ok pg) :
    ∃ pages, generate_tickets_pdf ds = Except.ok pages ∧ pages.length = ds.length ∧
      ∀ j, j < ds.length →
        _render_ticket_page (ds.getD j []) = Except.ok (pages.getD j emptyPage) := by
  induction ds with
  | nil => exact ⟨[], rfl, rfl, by intro j hj; cases hj⟩
  | cons d rest ih =>
    obtain ⟨pg, hpg⟩ := h d (by simp)
    obtain ⟨pages, hpages, hlen, hidx⟩ := ih (by intro d2 hd2; exact h d2 (by simp [hd2]))
    refine ⟨pg :: pages, ?_, by simp [hlen], ?_⟩
    · unfold generate_tickets_pdf at hpages ⊢
      rw [List.mapM_cons, hpg, hpages]
      rfl
    · intro j hj
      cases j with
      | zero => simpa using hpg
      | succ j2 =>
        have hj2 : j2 < rest.length := by simpa using hj
        simpa using hidx j2 hj2

/-- C5 counterexample: a record with no phone field makes the renderer
fail with a Validation error — the phone is not an optional field with
an empty-string fallback. -/
theorem claim_C5_counterexample :
    _render_ticket_page [(S "area", S "X"), (S "senha", S "1"), (S "nome", S "N")] =
      Except.error (Err.valueError (S "Telefone é obrigatório.")) := by rfl

/-- C5 (amended): rendering substitutes the empty string for missing
neighborhood and registration timestamp (social handle and email are
not rendered at all), and a batch render yields one page per record —
provided each record's phone normalizes; a missing or unnormalizable
phone fails rendering with a Validation error (see counterexample). -/
theorem claim_C5_optional_fields (d : Dict) (tel : Str)
    (h : format_phone_number (dget d (S "telefone") []) = Except.ok tel) :
    (∃ pg, _render_ticket_page d = Except.ok pg ∧
      pg.bairro = pyStrip (dget d (S "bairro") []) ∧
      pg.ts_registro = pyStrip (dget d (S "ts_registro") []) ∧
      (dget d (S "bairro") [] = [] → pg.bairro = []) ∧
      (dget d (S "ts_registro") [] = [] → pg.ts_registro = [])) ∧
    (∀ ds : List Dict,
      (∀ d2 ∈ ds, ∃ tel2, format_phone_number (dget d2 (S "telefone") []) = Except.ok tel2) →
      ∃ pages, generate_tickets_pdf ds = Except.ok pages ∧ pages.length = ds.length) := by
  constructor
  · refine ⟨_, render_ok_of_phone d tel h, rfl, rfl, ?_, ?_⟩
    · intro hb
      simp only [hb]
      rfl
    · intro hb
      simp only [hb]
      rfl
  · intro ds hds
    obtain ⟨pages, h1, h2, _⟩ := generate_tickets_pdf_ok ds (by
      intro d2 hd2
      obtain ⟨tel2, htel2⟩ := hds d2 hd2
      exact ⟨_, render_ok_of_phone d2 tel2 htel2⟩)
    exact ⟨pages, h1, h2⟩

/-- Witness for the amended C5 on a record with a phone but no
neighborhood, timestamp, social handle or email. -/
theorem claim_C5_witness :
    ∃ pg, _render_ticket_page
        [(S "area", S "X"), (S "senha", S "1"), (S "nome", S "N"),
         (S "telefone", S "92981234567")] = Except.ok pg ∧
      pg.bairro = pyStrip (dget [(S "area", S "X"), (S "senha", S "1"), (S "nome", S "N"),
         (S "telefone", S "92981234567")] (S "bairro") []) ∧
      pg.ts_registro = pyStrip (dget [(S "area", S "X"), (S "senha", S "1"), (S "nome", S "N"),
         (S "telefone", S "92981234567")] (S "ts_registro") []) ∧
      (dget [(S "area", S "X"), (S "senha", S "1"), (S "nome", S "N"),
         (S "telefone", S "92981234567")] (S "bairro") [] = [] → pg.bairro = []) ∧
      (dget [(S "area", S "X"), (S "senha", S "1"), (S "nome", S "N"),
         (S "telefone", S "92981234567")] (S "ts_registro") [] = [] → pg.ts_registro = []) :=
  (claim_C5_optional_fields
    [(S "area", S "X"), (S "senha", S "1"), (S "nome", S "N"),
     (S "telefone", S "92981234567")] (S "(92) 98123-4567") (by rfl)).1

/-! ### Re-normalization of an already formatted phone -/

theorem fpn_ok_shape (s t : Str) (h : format_phone_number s = Except.ok t) :
    ∃ loc : Str, t = S "(92) " ++ loc.take 5 ++ S "-" ++ loc.drop 5 ∧
      loc.length = 9 ∧ (∀ c ∈ loc, c.isDigit = true) := by
  by_cases hl : (phone_digits_stripped s).length = 11
  · obtain ⟨loc, _, hok, hlen, hdig⟩ := (format_phone_number_cases s).1 hl
    rw [h] at hok
    exact ⟨loc, Except.ok.inj hok, hlen, hdig⟩
  · obtain ⟨m, hm⟩ := (format_phone_number_cases s).2 hl
    rw [h] at hm
    cases hm

theorem digitsOf_formatted (loc : Str) (hdig : ∀ c ∈ loc, c.isDigit = true) :
    digitsOf (S "(92) " ++ loc.take 5 ++ S "-" ++ loc.drop 5) = S "92" ++ loc := by
  unfold digitsOf
  rw [List.filter_append, List.filter_append, List.filter_append]
  rw [List.filter_eq_self.mpr (fun c hc => hdig c (List.mem_of_mem_take hc)),
    List.filter_eq_self.mpr (fun c hc => hdig c (List.mem_of_mem_drop hc))]
  rw [show List.filter Char.isDigit (S "(92) ") = S "92" from rfl,
    show List.filter Char.isDigit (S "-") = [] from rfl]
  simp [List.take_append_drop]

theorem fpn_reformat (s t : Str) (h : format_phone_number s = Except.ok t) :
    ∃ u, format_phone_number t = Except.ok u := by
  obtain ⟨loc, ht, hlen, hdig⟩ := fpn_ok_shape s t h
  have hD : digitsOf (pyStrip t) = S "92" ++ loc := by
    rw [digitsOf_pyStrip, ht, digitsOf_formatted loc hdig]
  have hpds : phone_digits_stripped t = S "92" ++ loc := by
    unfold phone_digits_stripped
    rw [hD]
    have hcond : ¬ ((S "92" ++ loc).take 2 = S "55" ∧ 11 < (S "92" ++ loc).length) := by
      intro hco
      have h92 : (S "92" ++ loc).take 2 = S "92" := by rfl
      rw [h92] at hco
      exact absurd hco.1 (by decide)
    rw [if_neg hcond]
  have hlen11 : (phone_digits_stripped t).length = 11 := by
    rw [hpds, List.length_append, hlen]
    rfl
  obtain ⟨loc2, _, hok, _, _⟩ := (format_phone_number_cases t).1 hlen11
  exact ⟨_, hok⟩

/-! ### Expected outcome of a fully acknowledged submission loop -/

theorem expectedResultados_length (ls : Str → Option Str) (nf tf bf rf ef ts : Str)
    (senhaOf : Nat → Nat) :
    ∀ (rest : List Str) (k : Nat),
      (expectedResultados ls nf tf bf rf ef ts senhaOf rest k).length = rest.length := by
  intro rest
  induction rest with
  | nil => intro k; rfl
  | cons a rest ih =>
    intro k
    simp [expectedResultados, ih (k + 1)]

theorem expectedResultados_getD (ls : Str → Option Str) (nf tf bf rf ef ts : Str)
    (senhaOf : Nat → Nat) :
    ∀ (rest : List Str) (k j : Nat), j < rest.length →
      (expectedResultados ls nf tf bf rf ef ts senhaOf rest k).getD j [] =
        mkRegistro (rest.getD j []) (sheetFor ls (rest.getD j [])) (senhaOf (k + j))
          nf tf bf rf ef ts := by
  intro rest
  induction rest with
  | nil => intro k j hj; cases hj
  | cons a rest ih =>
    intro k j hj
    cases j with
    | zero => simp [expectedResultados]
    | succ j2 =>
      have hj2 : j2 < rest.length := by simpa using hj
      have := ih (k + 1) j2 hj2
      simp only [expectedResultados, List.getD_cons_succ]
      rw [this]
      have hk : k + 1 + j2 = k + (j2 + 1) := by omega
      simp [hk]

theorem expectedResultados_mem (ls : Str → Option Str) (nf tf bf rf ef ts : Str)
    (senhaOf : Nat → Nat) :
    ∀ (rest : List Str) (k : Nat) (d : Dict),
      d ∈ expectedResultados ls nf tf bf rf ef ts senhaOf rest k →
      ∃ a n, d = mkRegistro a (sheetFor ls a) n nf tf bf rf ef ts := by
  intro rest
  induction rest with
  | nil => intro k d hd; cases hd
  | cons a rest ih =>
    intro k d hd
    rcases List.mem_cons.mp hd with hd | hd
    · exact ⟨a, senhaOf k, hd⟩
    · exact ih (k + 1) d hd

theorem submitLoop_parsed_spec (ls : Str → Option Str) (ll : Str → Option Nat)
    (nf tf bf rf ef ts : Str) (acks : Nat → Str) (ns : Nat → Nat)
    (hack : ∀ k, parseUpdatedRange (acks k) = some (ns k)) :
    ∀ (rest : List Str) (k : Nat) (acc : LoopAcc),
      (submitLoop ls ll nf tf bf rf ef ts acks rest k acc).2 = none ∧
      (submitLoop ls ll nf tf bf rf ef ts acks rest k acc).1.resultados =
        acc.resultados ++
          expectedResultados ls nf tf bf rf ef ts (fun j => max 1 (ns j - 1)) rest k ∧
      (submitLoop ls ll nf tf bf rf ef ts acks rest k acc).1.excedidas =
        acc.excedidas ++ expectedExcedidas ll (fun j => max 1 (ns j - 1)) rest k ∧
      (∀ a ∈ rest, Ev.append (sheetFor ls a) (theRow nf tf rf ef bf ts) ∈
        (submitLoop ls ll nf tf bf rf ef ts acks rest k acc).1.trace) := by
  intro rest
  induction rest with
  | nil =>
    intro k acc
    refine ⟨rfl, by simp [submitLoop, expectedResultados],
      by simp [submitLoop, expectedExcedidas], by intro a ha; cases ha⟩
  | cons area rest ih =>
    intro k acc
    have hr : (append_ticket_and_get_number acc.state (sheetFor ls area)
        (theRow nf tf rf ef bf ts) (acks k)).ret = Except.ok (max 1 (ns k - 1)) := by
      rw [atgn_parsed _ _ _ _ _ (hack k)]
    simp only [submitLoop, hr]
    obtain ⟨ih1, ih2, ih3, ih4⟩ := ih (k + 1)
      { resultados := acc.resultados ++ [mkRegistro area (sheetFor ls area)
          (max 1 (ns k - 1)) nf tf bf rf ef ts],
        excedidas := match ll area with
          | some l => if l < max 1 (ns k - 1) then
              acc.excedidas ++ [⟨area, l, max 1 (ns k - 1)⟩]
            else acc.excedidas
          | none => acc.excedidas,
        trace := acc.trace ++ (append_ticket_and_get_number acc.state (sheetFor ls area)
          (theRow nf tf rf ef bf ts) (acks k)).trace,
        state := (append_ticket_and_get_number acc.state (sheetFor ls area)
          (theRow nf tf rf ef bf ts) (acks k)).state }
    refine ⟨ih1, ?_, ?_, ?_⟩
    · rw [ih2]
      simp [expectedResultados, List.append_assoc]
    · rw [ih3]
      simp only [expectedExcedidas]
      cases hll : ll area with
      | none => simp
      | some l =>
        by_cases hlt : l < max 1 (ns k - 1)
        · simp [hlt, List.append_assoc]
        · simp [hlt]
    · intro a ha
      rcases List.mem_cons.mp ha with ha | ha
      · subst ha
        obtain ⟨tr2, htr⟩ := submitLoop_trace_extends ls ll nf tf bf rf ef ts acks rest (k + 1)
          { resultados := acc.resultados ++ [mkRegistro a (sheetFor ls a)
              (max 1 (ns k - 1)) nf tf bf rf ef ts],
            excedidas := match ll a with
              | some l => if l < max 1 (ns k - 1) then
                  acc.excedidas ++ [⟨a, l, max 1 (ns k - 1)⟩]
                else acc.excedidas
              | none => acc.excedidas,
            trace := acc.trace ++ (append_ticket_and_get_number acc.state (sheetFor ls a)
              (theRow nf tf rf ef bf ts) (acks k)).trace,
            state := (append_ticket_and_get_number acc.state (sheetFor ls a)
              (theRow nf tf rf ef bf ts) (acks k)).state }
        rw [htr]
        rw [List.mem_append]
        left
        rw [List.mem_append]
        right
        exact atgn_append_in_trace _ _ _ _
      · exact ih4 a ha

theorem submitAssemble_none_exceeded (out : LoopAcc × Option Err) (h2 : out.2 = none)
    (hexc : out.1.excedidas ≠ []) :
    (submitAssemble out).ret =
      Except.ok ⟨out.1.resultados, none, out.1.excedidas⟩ := by
  rcases out with ⟨acc, err⟩
  simp only at h2
  subst h2
  unfold submitAssemble
  simp only at hexc ⊢
  rw [if_neg hexc]

theorem submitAssemble_none_ok (out : LoopAcc × Option Err) (h2 : out.2 = none)
    (hexc : out.1.excedidas = []) (pages : List Page)
    (hpdf : generate_tickets_pdf out.1.resultados = Except.ok pages) :
    (submitAssemble out).ret =
      Except.ok ⟨out.1.resultados, some pages, out.1.excedidas⟩ := by
  rcases out with ⟨acc, err⟩
  simp only at h2
  subst h2
  unfold submitAssemble
  simp only at hexc hpdf ⊢
  rw [if_pos hexc, hpdf]

theorem dget_mkRegistro_telefone (a sh : Str) (n : Nat) (nf tf bf rf ef ts : Str) :
    dget (mkRegistro a sh n nf tf bf rf ef ts) (S "telefone") [] = tf := by rfl

theorem dget_mkRegistro_senha (a sh : Str) (n : Nat) (nf tf bf rf ef ts : Str) :
    dget (mkRegistro a sh n nf tf bf rf ef ts) (S "senha") (S "0") = natToStr n := by rfl

theorem render_mkRegistro (a sh : Str) (n : Nat) (nf tf bf rf ef ts u : Str)
    (hu : format_phone_number tf = Except.ok u) :
    ∃ pg, _render_ticket_page (mkRegistro a sh n nf tf bf rf ef ts) = Except.ok pg ∧
      pg.senha = natToStr n := by
  have h2 : format_phone_number
      (dget (mkRegistro a sh n nf tf bf rf ef ts) (S "telefone") []) = Except.ok u := by
    rw [dget_mkRegistro_telefone]
    exact hu
  refine ⟨_, render_ok_of_phone (mkRegistro a sh n nf tf bf rf ef ts) u h2, ?_⟩
  simp only
  rw [dget_mkRegistro_senha, pyStrip_natToStr]
/-- C3: for a valid submission (areas nonempty, resolvable
configuration, normalizable name and phone) in which every append is
acknowledged with a parseable row position, `submit_tickets` persists
one registration per requested area in the caller-supplied order (an
append per area reaches the store, and the returned list has one
registration per area, in order, with its issued number); the returned
exceeded-list is exactly the areas whose configured maximum is below
their issued number, with limit and actual number; when it is nonempty
no document is produced while all registrations remain; when it is
empty a document with one page per issued ticket, in processing order,
is produced. -/
theorem claim_C3_submit_batch (cfg : List Row) (areas : List Str)
    (nome telefone bairro rede_social email ts : Str) (acks : Nat → Str) (st : SheetsState)
    (ns : Nat → Nat) (infos : List AreaInfo) (tf : Str)
    (ha : areas ≠ [])
    (hr : read_active_areas cfg = Except.ok infos)
    (hn : format_name_upper nome ≠ [])
    (hp : format_phone_number telefone = Except.ok tf)
    (hack : ∀ k, parseUpdatedRange (acks k) = some (ns k)) :
    (expectedResultados (sheetLookup infos) (format_name_upper nome) tf (pyStrip bairro)
        (pyStrip rede_social) (pyStrip email) ts (fun j => max 1 (ns j - 1)) areas 0).length =
      areas.length ∧
    (∀ j, j < areas.length →
      (expectedResultados (sheetLookup infos) (format_name_upper nome) tf (pyStrip bairro)
          (pyStrip rede_social) (pyStrip email) ts (fun j => max 1 (ns j - 1)) areas 0).getD
          j [] =
        mkRegistro (areas.getD j []) (sheetFor (sheetLookup infos) (areas.getD j []))
          (max 1 (ns j - 1)) (format_name_upper nome) tf (pyStrip bairro)
          (pyStrip rede_social) (pyStrip email) ts) ∧
    (expectedExcedidas (limitLookup infos) (fun j => max 1 (ns j - 1)) areas 0 ≠ [] →
      (submit_tickets cfg areas nome telefone bairro rede_social email ts acks st).ret =
        Except.ok ⟨expectedResultados (sheetLookup infos) (format_name_upper nome) tf
            (pyStrip bairro) (pyStrip rede_social) (pyStrip email) ts
            (fun j => max 1 (ns j - 1)) areas 0,
          none,
          expectedExcedidas (limitLookup infos) (fun j => max 1 (ns j - 1)) areas 0⟩) ∧
    (expectedExcedidas (limitLookup infos) (fun j => max 1 (ns j - 1)) areas 0 = [] →
      ∃ pages,
        (submit_tickets cfg areas nome telefone bairro rede_social email ts acks st).ret =
          Except.ok ⟨expectedResultados (sheetLookup infos) (format_name_upper nome) tf
              (pyStrip bairro) (pyStrip rede_social) (pyStrip email) ts
              (fun j => max 1 (ns j - 1)) areas 0,
            some pages, []⟩ ∧
        pages.length = areas.length ∧
        ∀ j, j < areas.length →
          (pages.getD j emptyPage).senha = natToStr (max 1 (ns j - 1))) ∧
    (∀ a ∈ areas, Ev.append (sheetFor (sheetLookup infos) a)
        (theRow (format_name_upper nome) tf (pyStrip rede_social) (pyStrip email)
          (pyStrip bairro) ts) ∈
      (submit_tickets cfg areas nome telefone bairro rede_social email ts acks st).trace) := by
  have hmain := submit_main_eq cfg areas nome telefone bairro rede_social email ts acks st
    ha infos hr hn tf hp
  obtain ⟨h2, hres, hexc, happ⟩ := submitLoop_parsed_spec (sheetLookup infos)
    (limitLookup infos) (format_name_upper nome) tf (pyStrip bairro) (pyStrip rede_social)
    (pyStrip email) ts acks ns hack areas 0 ⟨[], [], [Ev.readCfg], st⟩
  simp only [List.nil_append] at hres hexc
  refine ⟨expectedResultados_length _ _ _ _ _ _ _ _ _ _, ?_, ?_, ?_, ?_⟩
  · intro j hj
    have := expectedResultados_getD (sheetLookup infos) (format_name_upper nome) tf
      (pyStrip bairro) (pyStrip rede_social) (pyStrip email) ts
      (fun j => max 1 (ns j - 1)) areas 0 j hj
    simpa using this
  · intro hne
    rw [hmain]
    rw [submitAssemble_none_exceeded _ h2 (by rw [hexc]; exact hne)]
    rw [hres, hexc]
  · intro hempty
    obtain ⟨u, hu⟩ := fpn_reformat telefone tf hp
    obtain ⟨pages, hgen, hplen, hpidx⟩ := generate_tickets_pdf_ok
      (expectedResultados (sheetLookup infos) (format_name_upper nome) tf (pyStrip bairro)
        (pyStrip rede_social) (pyStrip email) ts (fun j => max 1 (ns j - 1)) areas 0)
      (by
        intro d hd
        obtain ⟨a, n, hdeq⟩ := expectedResultados_mem _ _ _ _ _ _ _ _ areas 0 d hd
        subst hdeq
        obtain ⟨pg, hpg, _⟩ := render_mkRegistro a (sheetFor (sheetLookup infos) a) n
          (format_name_upper nome) tf (pyStrip bairro) (pyStrip rede_social)
          (pyStrip email) ts u hu
        exact ⟨pg, hpg⟩)
    refine ⟨pages, ?_, by rw [hplen, expectedResultados_length], ?_⟩
    · rw [hmain]
      rw [submitAssemble_none_ok _ h2 (by rw [hexc]; exact hempty) pages
        (by rw [hres]; exact hgen)]
      rw [hres, hexc, hempty]
    · intro j hj
      have hd := hpidx j (by rw [expectedResultados_length]; exact hj)
      rw [expectedResultados_getD (sheetLookup infos) (format_name_upper nome) tf
        (pyStrip bairro) (pyStrip rede_social) (pyStrip email) ts
        (fun j => max 1 (ns j - 1)) areas 0 j hj] at hd
      obtain ⟨pg, hpg, hs⟩ := render_mkRegistro (areas.getD j [])
        (sheetFor (sheetLookup infos) (areas.getD j [])) (max 1 (ns (0 + j) - 1))
        (format_name_upper nome) tf (pyStrip bairro) (pyStrip rede_social)
        (pyStrip email) ts u hu
      rw [hd] at hpg
      have hpgq := Except.ok.inj hpg
      rw [← hpgq] at hs
      simpa using hs
  · intro a haa
    rw [hmain, submitAssemble_trace]
    exact happ a haa

/-- Witness for C3: the spec scenario — areas `[A, B]`, `B` has quota 1
and already one registration (its append lands at row 3), so both
registrations persist, the exceeded-list reports exactly `B` with limit
1 and number 2, and no document is produced. -/
theorem claim_C3_witness :
    expectedExcedidas
        (limitLookup [⟨S "A", S "A", true, none⟩, ⟨S "B", S "B", true, some 1⟩])
        (fun j => max 1 ((if j = 0 then 2 else 3) - 1)) [S "A", S "B"] 0 ≠ [] ∧
    (submit_tickets
        [[S "Area", S "Ativa", S "Limite"], [S "A", S "Sim", S ""], [S "B", S "Sim", S "1"]]
        [S "A", S "B"] (S "Jo") (S "92981234567") (S "Centro") [] [] (S "X")
        (fun k => if k = 0 then S "A!A2:H2" else S "B!A3:H3") []).ret =
      Except.ok ⟨expectedResultados
          (sheetLookup [⟨S "A", S "A", true, none⟩, ⟨S "B", S "B", true, some 1⟩])
          (format_name_upper (S "Jo")) (S "(92) 98123-4567") (pyStrip (S "Centro"))
          (pyStrip []) (pyStrip []) (S "X")
          (fun j => max 1 ((if j = 0 then 2 else 3) - 1)) [S "A", S "B"] 0,
        none,
        expectedExcedidas
          (limitLookup [⟨S "A", S "A", true, none⟩, ⟨S "B", S "B", true, some 1⟩])
          (fun j => max 1 ((if j = 0 then 2 else 3) - 1)) [S "A", S "B"] 0⟩ := by
  have hack : ∀ k, parseUpdatedRange (if k = 0 then S "A!A2:H2" else S "B!A3:H3") =
      some (if k = 0 then 2 else 3) := by
    intro k
    cases k with
    | zero => decide
    | succ k2 =>
      rw [if_neg (Nat.succ_ne_zero k2), if_neg (Nat.succ_ne_zero k2)]
      decide
  refine ⟨by decide, ?_⟩
  exact (claim_C3_submit_batch
    [[S "Area", S "Ativa", S "Limite"], [S "A", S "Sim", S ""], [S "B", S "Sim", S "1"]]
    [S "A", S "B"] (S "Jo") (S "92981234567") (S "Centro") [] [] (S "X")
    (fun k => if k = 0 then S "A!A2:H2" else S "B!A3:H3") []
    (fun j => if j = 0 then 2 else 3)
    [⟨S "A", S "A", true, none⟩, ⟨S "B", S "B", true, some 1⟩]
    (S "(92) 98123-4567")
    (by decide) (by rfl) (by decide) (by rfl) hack).2.2.1 (by decide)

end SenhasGF
